import Mathlib

/-!
Shallow embedding of the collage generation engine
(services/collage_generator.py together with the pre-sizing pass that
calls the image-transform collaborator in services/image_processor.py).

Conventions of the embedding:
* Python integers are modelled by Int; Python floor division a // b is
  Int.fdiv and Python a % b is Int.fmod.
* Image identifiers (UUIDs in the source) are modelled by Nat.
* Per-image fallible operations are modelled by two Boolean fields on an
  image handle: processOk (the pre-sizing transform collaborator call
  succeeds) and loadOk (the later Image.open / thumbnail / paste block
  inside a layout routine succeeds).  The engine absorbs both kinds of
  failure per image.
* Run-fatal operations (canvas allocation and the final JPEG encode)
  are modelled by two Boolean fields of an environment record.
* The freeform layout draws random sizes and candidate positions; the
  random source is modelled by explicit functions in the environment.
* The raster canvas is modelled as its background fill plus the ordered
  list of paste operations performed on it; a flat background canvas is
  one with an empty paste list.
-/

/-- An image handle (ImageInfo in the source): identifier, pixel size,
and the outcome flags of its two fallible per-image operations. -/
structure ImageInfo where
  id : Nat
  width : Nat
  height : Nat
  processOk : Bool
  loadOk : Bool
deriving Repr, DecidableEq

/-- Placement of one image in the collage (CollageElement with its
ImagePosition in the source). -/
structure CollageElement where
  image_id : Nat
  x : Int
  y : Int
  width : Nat
  height : Nat
deriving Repr, DecidableEq

/-- The raster canvas: size, background colour and the ordered list of
paste operations (each paste corresponds to one placed element). -/
structure Canvas where
  width : Int
  height : Int
  bg : String
  pastes : List CollageElement
deriving Repr, DecidableEq

/-- A design request (DesignRequest in the source).  The layout is kept
as its string value: CollageLayout is a str Enum in the source, so the
dispatch in generate_collage compares string values, and a request
carrying an unknown layout string exercises the fallback branch. -/
structure DesignRequest where
  images : List ImageInfo
  layout : String
  output_width : Int
  output_height : Int
  background_color : String
  spacing : Int
deriving Repr, DecidableEq

/-- Result record (CollageGenerationResult in the source); the saved
raster file is represented by the canvas itself. -/
structure CollageGenerationResult where
  output_width : Int
  output_height : Int
  images_used : List Nat
  layout_used : String
  elements : List CollageElement
  canvas : Canvas
deriving Repr, DecidableEq

/-- The run-fatal failure modes of generate_collage. -/
inductive GenError where
  | unsupportedLayout (layout : String)
  | canvasAllocFailure
  | encodeFailure
deriving Repr, DecidableEq

/-- Environment of one run: whether canvas allocation (Image.new) and
the final save (JPEG encode) succeed, the random source consumed by
the freeform layout (randSize i is the random bound for the i-th image,
randCand i j the j-th random candidate position for the i-th image),
and the uuid4 source of the image processor (freshId i is the fresh id
_get_image_info assigns to the processed copy of the request image at
input index i: ImageInfo.id has default_factory uuid4 and
_get_image_info does not pass an id). -/
structure Env where
  allocOk : Bool
  saveOk : Bool
  randSize : Nat → Int
  randCand : Nat → Nat → Int × Int
  freshId : Nat → Nat

/-- Aspect-preserving shrink-only fit, modelling the external transform
collaborator's fit policy (PIL thumbnail): an image already inside the
target box is returned unchanged, otherwise it is scaled down to touch
the target box while preserving aspect, never below one pixel.  Target
sides are Int because the engine can compute nonpositive cell sizes;
the fit is only reached on images whose per-image operation succeeded. -/
def fitShrink (w h : Nat) (tw th : Int) : Nat × Nat :=
  if (w : Int) ≤ tw ∧ (h : Int) ≤ th then (w, h)
  else
    let tw' := tw.toNat
    let th' := th.toNat
    if th' * w ≤ tw' * h then (max 1 (w * th' / h), th') else (tw', max 1 (h * tw' / w))

/-- ceil(sqrt n) over naturals, the value int(math.ceil(math.sqrt(n)))
computes in the source: the least k with n ≤ k * k (such a k is at
most n, so the bounded search never falls through to the default). -/
def ceilSqrt (n : Nat) : Nat :=
  (((List.range (n + 1)).find? fun k => n ≤ k * k).getD n)

/-- ceil(n / k) over naturals, the value int(math.ceil(n / k)) computes
in the source (k positive there). -/
def ceilDiv (n k : Nat) : Nat := (n + k - 1) / k

/-- Grid shape chosen by the pre-sizing pass of
_process_images_for_collage: 2 by 2 for up to four images, 3 by 3 for up
to nine, ceil-sqrt otherwise. -/
def presizeGrid (n : Nat) : Nat × Nat :=
  if n ≤ 4 then (2, 2)
  else if n ≤ 9 then (3, 3)
  else (ceilSqrt n, ceilDiv n (ceilSqrt n))

/-- Per-image target box of the pre-sizing pass.  The source hardcodes
spacing = 10 here (it does not read request spacing), and floors the two
divisions with no further clamping. -/
def presizeCell (n : Nat) (w h : Int) : Int × Int :=
  let cols := (presizeGrid n).1
  let rows := (presizeGrid n).2
  let availableWidth := w - 10 * ((cols : Int) - 1)
  let availableHeight := h - 10 * ((rows : Int) - 1)
  (availableWidth.fdiv cols, availableHeight.fdiv rows)

/-- The pre-sizing pass (_process_images_for_collage): images whose
transform fails are dropped with a warning, the rest enter the working
set resized toward the per-cell box with the fit policy.  Each
surviving image is the processor's result.processed_image, a fresh
ImageInfo built by _get_image_info with a new uuid4 id (modelled by
env.freshId at the image's input index), not the requested handle. -/
def processImages (env : Env) (images : List ImageInfo) (w h : Int) : List ImageInfo :=
  if images.length = 0 then []
  else
    let cell := presizeCell images.length w h
    images.enum.filterMap fun p =>
      if p.2.processOk then
        let fitted := fitShrink p.2.width p.2.height cell.1 cell.2
        some { id := env.freshId p.1, width := fitted.1, height := fitted.2
               processOk := true, loadOk := p.2.loadOk }
      else none

/-- The placement the grid layout computes for the working-set image of
0-based index i (inside _create_grid_collage): index-derived cell,
shrink-fit into the cell, centred by floored halves. -/
def gridElem (w h spacing : Int) (m i : Nat) (img : ImageInfo) : CollageElement :=
  let cols := ceilSqrt m
  let rows := ceilDiv m cols
  let cellW := (w - spacing * ((cols : Int) - 1)).fdiv cols
  let cellH := (h - spacing * ((rows : Int) - 1)).fdiv rows
  let row := i / cols
  let col := i % cols
  let x := (col : Int) * (cellW + spacing)
  let y := (row : Int) * (cellH + spacing)
  let fitted := fitShrink img.width img.height cellW cellH
  { image_id := img.id
    x := x + (cellW - (fitted.1 : Int)).fdiv 2
    y := y + (cellH - (fitted.2 : Int)).fdiv 2
    width := fitted.1
    height := fitted.2 }

/-- _create_grid_collage: allocate the canvas, then place each image of
the working set at its index-derived slot; a load failure is skipped
(the slot stays empty, later images keep their index-derived slots). -/
def createGridCollage (env : Env) (images : List ImageInfo) (req : DesignRequest) :
    Except GenError (Canvas × List CollageElement) :=
  if env.allocOk then
    let elements :=
      if images.length = 0 then []
      else images.enum.filterMap fun p =>
        if p.2.loadOk then
          some (gridElem req.output_width req.output_height req.spacing images.length p.1 p.2)
        else none
    Except.ok
      ({ width := req.output_width, height := req.output_height
         bg := req.background_color, pastes := elements }, elements)
  else Except.error GenError.canvasAllocFailure

/-- The placement loop of _create_stacked_collage: places the images of
the working set top to bottom at the running cursor y; a load failure
advances neither the cursor nor the element list. -/
def stackedGo (w imageHeight spacing : Int) : List ImageInfo → Int → List CollageElement
  | [], _ => []
  | img :: rest, y =>
    if img.loadOk then
      let fitted := fitShrink img.width img.height w imageHeight
      let pasteX := (w - (fitted.1 : Int)).fdiv 2
      { image_id := img.id, x := pasteX, y := y, width := fitted.1, height := fitted.2 }
        :: stackedGo w imageHeight spacing rest (y + (fitted.2 : Int) + spacing)
    else stackedGo w imageHeight spacing rest y

/-- _create_stacked_collage: allocate the canvas, compute the nominal
per-image height from the working-set size, then run the cursor loop
from 0. -/
def createStackedCollage (env : Env) (images : List ImageInfo) (req : DesignRequest) :
    Except GenError (Canvas × List CollageElement) :=
  if env.allocOk then
    let elements :=
      if images.length = 0 then []
      else
        let availableHeight := req.output_height - req.spacing * ((images.length : Int) - 1)
        let imageHeight := availableHeight.fdiv images.length
        stackedGo req.output_width imageHeight req.spacing images 0
    Except.ok
      ({ width := req.output_width, height := req.output_height
         bg := req.background_color, pastes := elements }, elements)
  else Except.error GenError.canvasAllocFailure

/-- Truncation toward zero of a real number, the behaviour of the
Python int() conversion applied to a float. -/
noncomputable def pyTrunc (r : Real) : Int :=
  if 0 ≤ r then ⌊r⌋ else ⌈r⌉

/-- The placement the circular layout computes for the working-set
image of 0-based index i of m (inside _create_circular_collage):
trigonometric position on the circle, with the integer half box size
subtracted before the truncating int() conversion. -/
noncomputable def circularElem (w h : Int) (m i : Nat) (img : ImageInfo) : CollageElement :=
  let centerX := w.fdiv 2
  let centerY := h.fdiv 2
  let radius := (min w h).fdiv 3
  let imageSize := min (radius.fdiv 2) 200
  let angle : Real := (2 * Real.pi * i) / m
  let px : Real := (centerX : Real) + (radius : Real) * Real.cos angle - ((imageSize.fdiv 2 : Int) : Real)
  let py : Real := (centerY : Real) + (radius : Real) * Real.sin angle - ((imageSize.fdiv 2 : Int) : Real)
  let fitted := fitShrink img.width img.height imageSize imageSize
  { image_id := img.id, x := pyTrunc px, y := pyTrunc py
    width := fitted.1, height := fitted.2 }

/-- _create_circular_collage: allocate the canvas, then place each
loaded image of the working set on the circle; load failures are
skipped without shifting later indices. -/
noncomputable def createCircularCollage (env : Env) (images : List ImageInfo) (req : DesignRequest) :
    Except GenError (Canvas × List CollageElement) :=
  if env.allocOk then
    let elements :=
      if images.length = 0 then []
      else images.enum.filterMap fun p =>
        if p.2.loadOk then
          some (circularElem req.output_width req.output_height images.length p.1 p.2)
        else none
    Except.ok
      ({ width := req.output_width, height := req.output_height
         bg := req.background_color, pastes := elements }, elements)
  else Except.error GenError.canvasAllocFailure

/-- Bounding-box proximity test of the freeform layout: the candidate
at (x, y) overlaps a previously used position when both coordinate
distances are below the image size. -/
def overlapAny (used : List (Int × Int)) (x y : Int) (fw fh : Nat) : Bool :=
  used.any fun p => (x - p.1).natAbs < fw ∧ (y - p.2).natAbs < fh

/-- Rejection sampling of the freeform layout: starting from candidate
index j with the given fuel, return the first non-overlapping candidate,
or the last candidate generated once the fuel runs out (the source
tries attempts 0 through 49 and keeps the final sample on failure). -/
def pickFrom (cand : Nat → Int × Int) (used : List (Int × Int)) (fw fh : Nat) :
    Nat → Nat → Int × Int
  | j, 0 => cand j
  | j, fuel + 1 =>
    let c := cand j
    if overlapAny used c.1 c.2 fw fh then pickFrom cand used fw fh (j + 1) fuel else c

/-- The placement loop of _create_freeform_collage: each loaded image
receives its random bound, is shrink-fit into it, and is pasted at the
sampled position, which is then recorded in the used-position list;
load failures advance only the per-image random cursor. -/
def freeformGo (env : Env) : Nat → List ImageInfo → List (Int × Int) → List CollageElement
  | _, [], _ => []
  | i, img :: rest, used =>
    if img.loadOk then
      let s := env.randSize i
      let fitted := fitShrink img.width img.height s s
      let pos := pickFrom (env.randCand i) used fitted.1 fitted.2 0 49
      { image_id := img.id, x := pos.1, y := pos.2, width := fitted.1, height := fitted.2 }
        :: freeformGo env (i + 1) rest (used ++ [pos])
    else freeformGo env (i + 1) rest used

/-- _create_freeform_collage: allocate the canvas, then run the random
placement loop. -/
def createFreeformCollage (env : Env) (images : List ImageInfo) (req : DesignRequest) :
    Except GenError (Canvas × List CollageElement) :=
  if env.allocOk then
    let elements :=
      if images.length = 0 then [] else freeformGo env 0 images []
    Except.ok
      ({ width := req.output_width, height := req.output_height
         bg := req.background_color, pastes := elements }, elements)
  else Except.error GenError.canvasAllocFailure

/-- The list built by the Python call range(0, stop, step) for a
positive step (the mosaic tile loops; the step there is at least 10 for
every validated canvas size). -/
def pyRange (stop step : Int) : List Int :=
  if step ≤ 0 then []
  else (List.range ((stop + step - 1).fdiv step).toNat).map fun k => (k : Int) * step

/-- Row-major scan order of the mosaic tile origins: y advances in the
outer loop, x in the inner one, both in steps of the tile size. -/
def mosaicCells (w h tileSize : Int) : List (Int × Int) :=
  (pyRange h tileSize).flatMap fun y => (pyRange w tileSize).map fun x => (x, y)

/-- The mosaic placement loop: each scanned cell consumes the next
image of the working set; a loaded image is pasted at the tile origin,
a load failure still consumes the image but leaves the tile empty; once
images are exhausted the remaining cells stay background. -/
def mosaicGo (tileSize : Int) : List (Int × Int) → List ImageInfo → List CollageElement
  | [], _ => []
  | _ :: cells, [] => mosaicGo tileSize cells []
  | cell :: cells, img :: imgs =>
    if img.loadOk then
      let fitted := fitShrink img.width img.height tileSize tileSize
      { image_id := img.id, x := cell.1, y := cell.2, width := fitted.1, height := fitted.2 }
        :: mosaicGo tileSize cells imgs
    else mosaicGo tileSize cells imgs

/-- _create_mosaic_collage: allocate the canvas, compute the tile size
as a tenth of the smaller canvas side, then run the row-major scan. -/
def createMosaicCollage (env : Env) (images : List ImageInfo) (req : DesignRequest) :
    Except GenError (Canvas × List CollageElement) :=
  if env.allocOk then
    let elements :=
      if images.length = 0 then []
      else
        let tileSize := (min req.output_width req.output_height).fdiv 10
        mosaicGo tileSize (mosaicCells req.output_width req.output_height tileSize) images
    Except.ok
      ({ width := req.output_width, height := req.output_height
         bg := req.background_color, pastes := elements }, elements)
  else Except.error GenError.canvasAllocFailure

/-- The list of layout values generate_collage dispatches on (the five
members of the CollageLayout str enum). -/
def supportedLayouts : List String :=
  ["grid", "stacked", "circular", "freeform", "mosaic"]

/-- The layout dispatch of generate_collage (lines 72 to 94 of the
source): the five supported layout values reach their layout routine,
anything else raises the unsupported-layout error, before any canvas
exists. -/
noncomputable def dispatchLayout (env : Env) (req : DesignRequest) (processed : List ImageInfo) :
    Except GenError (Canvas × List CollageElement) :=
  if req.layout = "grid" then createGridCollage env processed req
  else if req.layout = "stacked" then createStackedCollage env processed req
  else if req.layout = "circular" then createCircularCollage env processed req
  else if req.layout = "freeform" then createFreeformCollage env processed req
  else if req.layout = "mosaic" then createMosaicCollage env processed req
  else Except.error (GenError.unsupportedLayout req.layout)

/-- generate_collage: pre-size the request images into the working set,
dispatch on the layout, save the raster, and assemble the result
record; note images_used is built from the working set, not from the
placed elements. -/
noncomputable def generateCollage (env : Env) (req : DesignRequest) :
    Except GenError CollageGenerationResult :=
  match dispatchLayout env req (processImages env req.images req.output_width req.output_height) with
  | Except.error e => Except.error e
  | Except.ok (canvas, elements) =>
    if env.saveOk then
      Except.ok
        { output_width := req.output_width
          output_height := req.output_height
          images_used := (processImages env req.images req.output_width req.output_height).map ImageInfo.id
          layout_used := req.layout
          elements := elements
          canvas := canvas }
    else Except.error GenError.encodeFailure

/-- Number of collage canvases allocated during a run of
generate_collage: the pre-sizing pass allocates none, each layout
routine allocates exactly one as its first action, and the unsupported
layout branch raises before reaching any layout routine. -/
def canvasesAllocated (env : Env) (req : DesignRequest) : Nat :=
  if req.layout ∈ supportedLayouts then (if env.allocOk then 1 else 0) else 0

/-- Specification-side placement for the grid layout, following the
spec wording: cols = ceil(sqrt m), rows = ceil(m/cols), cell sizes from
the available canvas minus spacing, cell origin from the index-derived
row and column, paste position = cell origin plus the floored centring
offset of the shrink-fitted image. -/
def gridSpecPlacement (w h spacing : Int) (m i : Nat) (img : ImageInfo) : CollageElement :=
  let cols := ceilSqrt m
  let rows := ceilDiv m cols
  let cellWidth := (w - spacing * ((cols : Int) - 1)).fdiv cols
  let cellHeight := (h - spacing * ((rows : Int) - 1)).fdiv rows
  let origin : Int × Int :=
    (((i % cols : Nat) : Int) * (cellWidth + spacing),
     ((i / cols : Nat) : Int) * (cellHeight + spacing))
  let fitted := fitShrink img.width img.height cellWidth cellHeight
  { image_id := img.id
    x := origin.1 + (cellWidth - (fitted.1 : Int)).fdiv 2
    y := origin.2 + (cellHeight - (fitted.2 : Int)).fdiv 2
    width := fitted.1
    height := fitted.2 }

/-- Specification-side element list of the grid layout: one placement
per loaded working-set image at its index-derived slot, failures
skipped without shifting later slots. -/
def gridSpecPlacements (req : DesignRequest) (ws : List ImageInfo) : List CollageElement :=
  ws.enum.filterMap fun p =>
    if p.2.loadOk then
      some (gridSpecPlacement req.output_width req.output_height req.spacing ws.length p.1 p.2)
    else none

/-- Specification-side element list of the stacked layout: the nominal
height is (H - spacing*(m-1))/m floored; the k-th loaded image is
shrink-fitted into (W, nominal height), centred horizontally, and its
y coordinate is the sum of the actual post-fit heights plus spacing of
the previously placed images. -/
def stackedSpecElems (w h spacing : Int) (ws : List ImageInfo) : List CollageElement :=
  let ih := (h - spacing * ((ws.length : Int) - 1)).fdiv ws.length
  let placed := ws.filter fun img => img.loadOk
  placed.enum.map fun p =>
    let fitted := fitShrink p.2.width p.2.height w ih
    { image_id := p.2.id
      x := (w - (fitted.1 : Int)).fdiv 2
      y := ((placed.take p.1).map fun im =>
              ((fitShrink im.width im.height w ih).2 : Int) + spacing).sum
      width := fitted.1
      height := fitted.2 }

/-- Specification-side placement for the circular layout, following the
spec wording: radius min(W,H)/3 about the canvas centre, box size
min(radius/2, 200), top-left = centre + radius*(cos, sin) at angle
2*pi*i/m minus half the box size, truncated toward zero. -/
noncomputable def circularSpecPlacement (w h : Int) (m i : Nat) (img : ImageInfo) : CollageElement :=
  let center : Int × Int := (w.fdiv 2, h.fdiv 2)
  let radius := (min w h).fdiv 3
  let boxSize := min (radius.fdiv 2) 200
  let angle : Real := 2 * Real.pi * (i : Real) / (m : Real)
  let fitted := fitShrink img.width img.height boxSize boxSize
  { image_id := img.id
    x := pyTrunc ((center.1 : Real) + (radius : Real) * Real.cos angle - ((boxSize.fdiv 2 : Int) : Real))
    y := pyTrunc ((center.2 : Real) + (radius : Real) * Real.sin angle - ((boxSize.fdiv 2 : Int) : Real))
    width := fitted.1
    height := fitted.2 }

/-- Specification-side element list of the circular layout. -/
noncomputable def circularSpecPlacements (req : DesignRequest) (ws : List ImageInfo) : List CollageElement :=
  ws.enum.filterMap fun p =>
    if p.2.loadOk then
      some (circularSpecPlacement req.output_width req.output_height ws.length p.1 p.2)
    else none

/-- Element the mosaic layout produces for one image at one tile: the
paste position is the tile origin itself, the size the shrink-fit into
the square tile. -/
def mosaicSpecElem (tileSize : Int) (cell : Int × Int) (img : ImageInfo) : CollageElement :=
  let fitted := fitShrink img.width img.height tileSize tileSize
  { image_id := img.id, x := cell.1, y := cell.2, width := fitted.1, height := fitted.2 }

/-- Tile size of the mosaic layout for a request. -/
def mosaicTileSize (req : DesignRequest) : Int :=
  (min req.output_width req.output_height).fdiv 10

/-- The cell/image pairing of the mosaic layout: tiles in row-major
scan order zipped with the working set in input order. -/
def mosaicPairs (req : DesignRequest) (ws : List ImageInfo) : List ((Int × Int) × ImageInfo) :=
  (mosaicCells req.output_width req.output_height (mosaicTileSize req)).zip ws

/-- The element list the freeform layout routine computes for a working
set (the body of _create_freeform_collage after the canvas guard). -/
def freeformElems (env : Env) (req : DesignRequest) (ws : List ImageInfo) : List CollageElement :=
  if ws.length = 0 then [] else freeformGo env 0 ws []

/-- The element list the mosaic layout routine computes for a working
set (the body of _create_mosaic_collage after the canvas guard). -/
def mosaicElems (req : DesignRequest) (ws : List ImageInfo) : List CollageElement :=
  if ws.length = 0 then []
  else
    mosaicGo (mosaicTileSize req)
      (mosaicCells req.output_width req.output_height (mosaicTileSize req)) ws

/-- A concrete run environment in which canvas allocation and encoding
succeed and the freeform random source is fixed. -/
def wEnv : Env :=
  { allocOk := true, saveOk := true, randSize := fun _ => 150, randCand := fun _ _ => (3, 4)
    freshId := fun i => 100 + i }

/-- An image whose operations all succeed. -/
def wGoodImg (i : Nat) : ImageInfo :=
  { id := i, width := 50, height := 40, processOk := true, loadOk := true }

/-- An image that survives pre-sizing but fails to load inside the
layout routine. -/
def wNoLoadImg : ImageInfo :=
  { id := 7, width := 50, height := 40, processOk := true, loadOk := false }

/-- Grid request over a single image that fails to load, exhibiting the
divergence between images_used and the placed elements. -/
def c1Req : DesignRequest :=
  { images := [wNoLoadImg], layout := "grid", output_width := 800, output_height := 800
    background_color := "#FFFFFF", spacing := 10 }

/-- A design request whose layout string is not a member of the
CollageLayout enum. -/
def unknownLayoutReq : DesignRequest :=
  { images := [wGoodImg 1], layout := "unknown", output_width := 800, output_height := 800
    background_color := "#FFFFFF", spacing := 10 }

/-- Mosaic request with 101 all-successful images on a canvas holding
exactly 100 tiles. -/
def c7Req : DesignRequest :=
  { images := (List.range 101).map wGoodImg, layout := "mosaic"
    output_width := 1000, output_height := 1000
    background_color := "#FFFFFF", spacing := 10 }

/-- Request with no images at all. -/
def emptyReq : DesignRequest :=
  { images := [], layout := "grid", output_width := 640, output_height := 480
    background_color := "#00FF00", spacing := 10 }

/-- Another image that survives pre-sizing but fails to load. -/
def wBadImg : ImageInfo :=
  { id := 5, width := 50, height := 40, processOk := true, loadOk := false }

/-- A small working set with a load failure at index 1, used to witness
the mosaic skip-forward behaviour. -/
def c4Ws : List ImageInfo := [wGoodImg 0, wBadImg, wGoodImg 2]

/-- Mosaic request carrying the skip-forward working set. -/
def c4Req : DesignRequest :=
  { images := c4Ws, layout := "mosaic", output_width := 1000, output_height := 1000
    background_color := "#FFFFFF", spacing := 10 }

/-- Circular request over three images. -/
def c5Req : DesignRequest :=
  { images := [wGoodImg 0, wGoodImg 1, wGoodImg 2], layout := "circular"
    output_width := 900, output_height := 600
    background_color := "#FFFFFF", spacing := 10 }

/-- Stacked request over three images with a load failure in the
middle. -/
def c8Req : DesignRequest :=
  { images := [wGoodImg 0, wBadImg, wGoodImg 2]
    layout := "stacked", output_width := 800, output_height := 600
    background_color := "#FFFFFF", spacing := 10 }

/-- The result generate_collage produces for c1Req: the image that
fails to load is absent from the elements but present in images_used. -/
def c1Res : CollageGenerationResult :=
  { output_width := 800, output_height := 800, images_used := [100], layout_used := "grid"
    elements := []
    canvas := { width := 800, height := 800, bg := "#FFFFFF", pastes := [] } }

/-- Mosaic request with two all-successful images, small enough to fit
the tile grid. -/
def c7SmallReq : DesignRequest :=
  { images := [wGoodImg 0, wGoodImg 1], layout := "mosaic"
    output_width := 1000, output_height := 1000
    background_color := "#FFFFFF", spacing := 10 }

/-- The result generate_collage produces for c7SmallReq. -/
def c7SmallRes : CollageGenerationResult :=
  { output_width := 1000, output_height := 1000, images_used := [100, 101]
    layout_used := "mosaic"
    elements := [{ image_id := 100, x := 0, y := 0, width := 50, height := 40 },
                 { image_id := 101, x := 100, y := 0, width := 50, height := 40 }]
    canvas := { width := 1000, height := 1000, bg := "#FFFFFF"
                pastes := [{ image_id := 100, x := 0, y := 0, width := 50, height := 40 },
                           { image_id := 101, x := 100, y := 0, width := 50, height := 40 }] } }

/-! Generic list helpers about the skip-on-failure filterMap pattern the
layout loops share. -/

theorem filterMap_if_eq_map {α β : Type} (p : α → Bool) (f : α → β) (l : List α)
    (h : ∀ a ∈ l, p a = true) :
    (l.filterMap fun a => if p a then some (f a) else none) = l.map f := by
  induction l with
  | nil => rfl
  | cons a l ih =>
    have ha : p a = true := h a (by simp)
    simp only [List.filterMap_cons, ha, if_true, List.map_cons]
    rw [ih fun x hx => h x (by simp [hx])]

theorem filterMap_if_eq_nil {α β : Type} (p : α → Bool) (f : α → β) (l : List α)
    (h : ∀ a ∈ l, p a = false) :
    (l.filterMap fun a => if p a then some (f a) else none) = [] := by
  induction l with
  | nil => rfl
  | cons a l ih =>
    have ha : p a = false := h a (by simp)
    simp only [List.filterMap_cons, ha, if_false]
    exact ih fun x hx => h x (by simp [hx])

theorem filterMap_if_length_le {α β : Type} (p : α → Bool) (f : α → β) (l : List α) :
    (l.filterMap fun a => if p a then some (f a) else none).length ≤ l.length := by
  induction l with
  | nil => simp
  | cons a l ih =>
    rw [List.filterMap_cons]
    split
    · exact Nat.le_succ_of_le ih
    · simp only [List.length_cons]
      exact Nat.succ_le_succ ih

theorem filterMap_if_map {α β γ : Type} (p : α → Bool) (f : α → β) (g : β → γ) (g2 : α → γ)
    (hf : ∀ a, g (f a) = g2 a) (l : List α) :
    ((l.filterMap fun a => if p a then some (f a) else none).map g) = (l.filter p).map g2 := by
  induction l with
  | nil => rfl
  | cons a l ih =>
    simp only [List.filterMap_cons, List.filter_cons]
    cases p a
    · simpa using ih
    · simp only [if_true, List.map_cons, hf, ih]

theorem mem_filterMap_if {α β : Type} {p : α → Bool} {f : α → β} {l : List α} {b : β}
    (h : b ∈ l.filterMap fun a => if p a then some (f a) else none) :
    ∃ a ∈ l, p a = true ∧ b = f a := by
  rcases List.mem_filterMap.mp h with ⟨a, ha, hfa⟩
  by_cases hp : p a = true
  · exact ⟨a, ha, hp, by simp [hp] at hfa; exact hfa.symm⟩
  · simp [hp] at hfa

theorem snd_mem_of_mem_enum {α : Type} {l : List α} {p : Nat × α} (h : p ∈ l.enum) :
    p.2 ∈ l := by
  have := List.enum_map_snd l
  rw [← this]
  exact List.mem_map_of_mem Prod.snd h

theorem gridElem_eq_spec (w h spacing : Int) (m i : Nat) (img : ImageInfo) :
    gridElem w h spacing m i img = gridSpecPlacement w h spacing m i img := rfl

theorem grid_elements_spec (req : DesignRequest) (ws : List ImageInfo) :
    (if ws.length = 0 then ([] : List CollageElement)
     else ws.enum.filterMap fun p =>
       if p.2.loadOk then
         some (gridElem req.output_width req.output_height req.spacing ws.length p.1 p.2)
       else none)
    = gridSpecPlacements req ws := by
  by_cases h0 : ws.length = 0
  · rw [if_pos h0]
    rcases List.length_eq_zero.mp h0 with rfl
    simp [gridSpecPlacements]
  · rw [if_neg h0]
    rfl

/-- C3: in the grid layout over a working set of size m, with
cols = ceil(sqrt m) and rows = ceil(m/cols), every image at 0-based
input index i that loads successfully is placed at the floored centred
paste position of its index-derived cell (row = i div cols,
col = i mod cols), aspect-fit shrink-only into the cell, and a load
failure is skipped without shifting the index-derived slots of later
images. -/
theorem c3_grid_placement (env : Env) (ws : List ImageInfo) (req : DesignRequest)
    (hA : env.allocOk = true) :
    createGridCollage env ws req =
      Except.ok
        ({ width := req.output_width, height := req.output_height
           bg := req.background_color, pastes := gridSpecPlacements req ws },
         gridSpecPlacements req ws) := by
  unfold createGridCollage
  rw [hA]
  simp only [if_true]
  rw [grid_elements_spec]

/-- Witness for C3 at a concrete working set with a failing image in
the middle. -/
theorem c3_grid_placement_witness :
    createGridCollage wEnv c4Ws c1Req =
      Except.ok
        ({ width := c1Req.output_width, height := c1Req.output_height
           bg := c1Req.background_color, pastes := gridSpecPlacements c1Req c4Ws },
         gridSpecPlacements c1Req c4Ws) :=
  c3_grid_placement wEnv c4Ws c1Req rfl

theorem circularElem_eq_spec (w h : Int) (m i : Nat) (img : ImageInfo) :
    circularElem w h m i img = circularSpecPlacement w h m i img := rfl

theorem circular_elements_spec (req : DesignRequest) (ws : List ImageInfo) :
    (if ws.length = 0 then ([] : List CollageElement)
     else ws.enum.filterMap fun p =>
       if p.2.loadOk then
         some (circularElem req.output_width req.output_height ws.length p.1 p.2)
       else none)
    = circularSpecPlacements req ws := by
  by_cases h0 : ws.length = 0
  · rw [if_pos h0]
    rcases List.length_eq_zero.mp h0 with rfl
    simp [circularSpecPlacements]
  · rw [if_neg h0]
    rfl

/-- C5: in the circular layout over m images, with radius min(W,H)/3
around the canvas centre and box size min(radius/2, 200), the i-th
loaded element's top-left is centre + radius*(cos(2*pi*i/m),
sin(2*pi*i/m)) minus the floored half box size, truncated toward zero
to integers (so its centre lies at the exact real circle position). -/
theorem c5_circular_placement (env : Env) (ws : List ImageInfo) (req : DesignRequest)
    (hA : env.allocOk = true) :
    createCircularCollage env ws req =
      Except.ok
        ({ width := req.output_width, height := req.output_height
           bg := req.background_color, pastes := circularSpecPlacements req ws },
         circularSpecPlacements req ws) := by
  unfold createCircularCollage
  rw [hA]
  simp only [if_true]
  rw [circular_elements_spec]

theorem one_le_fdiv {a b : Int} (hb : 0 < b) (hba : b ≤ a) : 1 ≤ a.fdiv b := by
  have ha : 0 ≤ a := le_trans (le_of_lt hb) hba
  lift a to Nat using ha
  lift b to Nat using le_of_lt hb
  rw [← Int.ofNat_fdiv]
  have hb2 : 0 < b := by exact_mod_cast hb
  have hba2 : b ≤ a := by exact_mod_cast hba
  exact_mod_cast (Nat.one_le_div_iff hb2).mpr hba2

theorem presizeGrid_bounds (n : Nat) (h20 : n ≤ 20) :
    0 < (presizeGrid n).1 ∧ (presizeGrid n).1 ≤ 5 ∧
    0 < (presizeGrid n).2 ∧ (presizeGrid n).2 ≤ 5 := by
  interval_cases n <;> decide

/-- C9 counterexample: with 122 requested images on a 100 by 100
canvas the pre-sizing heuristic computes a cell width of -1, so the
claimed minimum of 1 does not hold. -/
theorem c9_min_cell_counterexample :
    presizeCell 122 100 100 = (-1, 0) ∧ ¬ 1 ≤ (presizeCell 122 100 100).1 := by
  constructor <;> decide

/-- C9 (amended): the heuristic uses a 2 by 2 grid for n up to 4, 3 by 3
for n up to 9 and the ceil-sqrt grid otherwise, and computes the cell
as the floored quotients with the fixed pre-sizing spacing 10 and no
minimum clamp; within the validated request envelope (at most 20
images, canvas sides at least 100) both cell sides are at least 1. -/
theorem c9_presize_heuristic (n : Nat) (w h : Int) :
    (n ≤ 4 → presizeCell n w h = ((w - 10).fdiv 2, (h - 10).fdiv 2)) ∧
    (4 < n → n ≤ 9 → presizeCell n w h = ((w - 20).fdiv 3, (h - 20).fdiv 3)) ∧
    (9 < n → presizeCell n w h =
      ((w - 10 * ((ceilSqrt n : Int) - 1)).fdiv (ceilSqrt n),
       (h - 10 * ((ceilDiv n (ceilSqrt n) : Int) - 1)).fdiv (ceilDiv n (ceilSqrt n)))) ∧
    (n ≤ 20 → 100 ≤ w → 100 ≤ h →
      1 ≤ (presizeCell n w h).1 ∧ 1 ≤ (presizeCell n w h).2) := by
  refine ⟨?_, ?_, ?_, ?_⟩
  · intro h4
    simp only [presizeCell, presizeGrid, if_pos h4]
    norm_num
  · intro h4 h9
    have h4n : ¬ n ≤ 4 := by omega
    simp only [presizeCell, presizeGrid, if_neg h4n, if_pos h9]
    norm_num
  · intro h9
    have h4n : ¬ n ≤ 4 := by omega
    have h9n : ¬ n ≤ 9 := by omega
    simp only [presizeCell, presizeGrid, if_neg h4n, if_neg h9n]
  · intro h20 hw hh
    obtain ⟨hc0, hc5, hr0, hr5⟩ := presizeGrid_bounds n h20
    have hc0i : (1 : Int) ≤ ((presizeGrid n).1 : Int) := by exact_mod_cast hc0
    have hc5i : ((presizeGrid n).1 : Int) ≤ 5 := by exact_mod_cast hc5
    have hr0i : (1 : Int) ≤ ((presizeGrid n).2 : Int) := by exact_mod_cast hr0
    have hr5i : ((presizeGrid n).2 : Int) ≤ 5 := by exact_mod_cast hr5
    constructor
    · show 1 ≤ (w - 10 * (((presizeGrid n).1 : Int) - 1)).fdiv ((presizeGrid n).1 : Int)
      exact one_le_fdiv (by omega) (by omega)
    · show 1 ≤ (h - 10 * (((presizeGrid n).2 : Int) - 1)).fdiv ((presizeGrid n).2 : Int)
      exact one_le_fdiv (by omega) (by omega)

/-- Witness for C9 at 12 images on a 1024 by 768 canvas. -/
theorem c9_presize_heuristic_witness :
    presizeCell 12 1024 768 =
      ((1024 - 10 * ((ceilSqrt 12 : Int) - 1)).fdiv (ceilSqrt 12),
       (768 - 10 * ((ceilDiv 12 (ceilSqrt 12) : Int) - 1)).fdiv (ceilDiv 12 (ceilSqrt 12))) ∧
    1 ≤ (presizeCell 12 1024 768).1 ∧ 1 ≤ (presizeCell 12 1024 768).2 :=
  ⟨(c9_presize_heuristic 12 1024 768).2.2.1 (by decide),
   (c9_presize_heuristic 12 1024 768).2.2.2 (by decide) (by decide) (by decide)⟩

/-- C10: in the stacked layout a load failure leaves the vertical
cursor unchanged: the continuation runs from the same y, and had the
image loaded it would have been placed exactly at that y, so a failure
consumes no vertical space. -/
theorem c10_stacked_failure_no_gap (w ih spacing : Int) (bad : ImageInfo)
    (rest : List ImageInfo) (y : Int) (hbad : bad.loadOk = false) :
    stackedGo w ih spacing (bad :: rest) y = stackedGo w ih spacing rest y ∧
    ∀ good : ImageInfo, good.loadOk = true →
      (stackedGo w ih spacing (good :: rest) y).head?.map CollageElement.y = some y := by
  constructor
  · simp [stackedGo, hbad]
  · intro good hg
    simp [stackedGo, hg]

/-- Witness for C10 at a concrete failing image and cursor 0. -/
theorem c10_stacked_failure_no_gap_witness :
    stackedGo 800 190 10 [wBadImg, wGoodImg 2] 0 = stackedGo 800 190 10 [wGoodImg 2] 0 ∧
    (stackedGo 800 190 10 [wGoodImg 0, wGoodImg 2] 0).head?.map CollageElement.y = some 0 :=
  ⟨(c10_stacked_failure_no_gap 800 190 10 wBadImg [wGoodImg 2] 0 rfl).1,
   (c10_stacked_failure_no_gap 800 190 10 wBadImg [wGoodImg 2] 0 rfl).2 (wGoodImg 0) rfl⟩

theorem processImages_all_fail (env : Env) (imgs : List ImageInfo) (w h : Int)
    (hf : ∀ i ∈ imgs, i.processOk = false) : processImages env imgs w h = [] := by
  unfold processImages
  by_cases h0 : imgs.length = 0
  · rw [if_pos h0]
  · rw [if_neg h0]
    exact filterMap_if_eq_nil _ _ _ fun p hp => hf p.2 (snd_mem_of_mem_enum hp)

theorem alloc_guard_error {α : Type} (b : Bool) (v : α) (e : GenError)
    (h : (if b = true then Except.ok v else Except.error GenError.canvasAllocFailure)
          = Except.error e) :
    e = GenError.canvasAllocFailure := by
  cases b
  · rw [if_neg (by simp)] at h
    injection h with h1
    exact h1.symm
  · rw [if_pos rfl] at h
    exact absurd h (by simp)

theorem dispatchLayout_error (env : Env) (req : DesignRequest) (p : List ImageInfo)
    (e : GenError) (h : dispatchLayout env req p = Except.error e) :
    e = GenError.unsupportedLayout req.layout ∨ e = GenError.canvasAllocFailure := by
  unfold dispatchLayout at h
  split at h
  · exact Or.inr (alloc_guard_error env.allocOk _ e h)
  split at h
  · exact Or.inr (alloc_guard_error env.allocOk _ e h)
  split at h
  · exact Or.inr (alloc_guard_error env.allocOk _ e h)
  split at h
  · exact Or.inr (alloc_guard_error env.allocOk _ e h)
  split at h
  · exact Or.inr (alloc_guard_error env.allocOk _ e h)
  · injection h with h1
    exact Or.inl h1.symm

theorem dispatchLayout_unsupported (env : Env) (req : DesignRequest) (p : List ImageInfo)
    (hns : req.layout ∉ supportedLayouts) :
    dispatchLayout env req p = Except.error (GenError.unsupportedLayout req.layout) := by
  have h1 : ¬ req.layout = "grid" := fun hx => hns (by simp [supportedLayouts, hx])
  have h2 : ¬ req.layout = "stacked" := fun hx => hns (by simp [supportedLayouts, hx])
  have h3 : ¬ req.layout = "circular" := fun hx => hns (by simp [supportedLayouts, hx])
  have h4 : ¬ req.layout = "freeform" := fun hx => hns (by simp [supportedLayouts, hx])
  have h5 : ¬ req.layout = "mosaic" := fun hx => hns (by simp [supportedLayouts, hx])
  simp [dispatchLayout, h1, h2, h3, h4, h5]

/-- C2: a request whose layout value is outside the five supported
layouts makes generate raise the distinguishable unsupported-layout
error with no canvas allocated, and unsupported layout, canvas
allocation failure and encode failure are the only errors generate can
raise at all. -/
theorem c2_error_discipline (env : Env) (req : DesignRequest) :
    (req.layout ∉ supportedLayouts →
      generateCollage env req = Except.error (GenError.unsupportedLayout req.layout) ∧
      canvasesAllocated env req = 0) ∧
    (∀ e : GenError, generateCollage env req = Except.error e →
      e = GenError.unsupportedLayout req.layout ∨ e = GenError.canvasAllocFailure ∨
      e = GenError.encodeFailure) := by
  constructor
  · intro hns
    constructor
    · unfold generateCollage
      rw [dispatchLayout_unsupported env req _ hns]
    · unfold canvasesAllocated
      rw [if_neg hns]
  · intro e he
    unfold generateCollage at he
    rcases hd : dispatchLayout env req
        (processImages env req.images req.output_width req.output_height) with e2 | pair
    · rw [hd] at he
      injection he with h1
      subst h1
      rcases dispatchLayout_error env req _ e2 hd with h | h
      · exact Or.inl h
      · exact Or.inr (Or.inl h)
    · rcases pair with ⟨c, els⟩
      rw [hd] at he
      dsimp only at he
      by_cases hs : env.saveOk = true
      · rw [if_pos hs] at he
        exact absurd he (by simp)
      · rw [if_neg hs] at he
        injection he with h1
        exact Or.inr (Or.inr h1.symm)

/-- Witness for C2 at a request with layout string unknown. -/
theorem c2_error_discipline_witness :
    generateCollage wEnv unknownLayoutReq =
      Except.error (GenError.unsupportedLayout "unknown") ∧
    canvasesAllocated wEnv unknownLayoutReq = 0 :=
  (c2_error_discipline wEnv unknownLayoutReq).1 (by decide)

theorem dispatch_empty (env : Env) (req : DesignRequest) (hA : env.allocOk = true)
    (hsup : req.layout ∈ supportedLayouts) :
    dispatchLayout env req [] =
      Except.ok
        ({ width := req.output_width, height := req.output_height
           bg := req.background_color, pastes := [] }, []) := by
  have h5 : req.layout = "grid" ∨ req.layout = "stacked" ∨ req.layout = "circular" ∨
      req.layout = "freeform" ∨ req.layout = "mosaic" := by
    simpa [supportedLayouts] using hsup
  rcases h5 with h | h | h | h | h <;>
    simp [dispatchLayout, h, createGridCollage, createStackedCollage, createCircularCollage,
      createFreeformCollage, createMosaicCollage, hA]

/-- C6: a request whose working set comes out empty (no images, or
every image failing the pre-sizing transform) still yields a valid
result with no elements, empty images_used and a flat background-only
canvas of the requested size, for every supported layout. -/
theorem c6_empty_request (env : Env) (req : DesignRequest) (hA : env.allocOk = true)
    (hS : env.saveOk = true) (hsup : req.layout ∈ supportedLayouts)
    (hfail : ∀ img ∈ req.images, img.processOk = false) :
    generateCollage env req =
      Except.ok
        { output_width := req.output_width
          output_height := req.output_height
          images_used := []
          layout_used := req.layout
          elements := []
          canvas := { width := req.output_width, height := req.output_height
                      bg := req.background_color, pastes := [] } } := by
  have hp : processImages env req.images req.output_width req.output_height = [] :=
    processImages_all_fail env _ _ _ hfail
  unfold generateCollage
  rw [hp, dispatch_empty env req hA hsup]
  dsimp only
  rw [if_pos hS]
  rfl

/-- Witness for C6 at the zero-image request. -/
theorem c6_empty_request_witness :
    generateCollage wEnv emptyReq =
      Except.ok
        { output_width := emptyReq.output_width
          output_height := emptyReq.output_height
          images_used := []
          layout_used := emptyReq.layout
          elements := []
          canvas := { width := emptyReq.output_width, height := emptyReq.output_height
                      bg := emptyReq.background_color, pastes := [] } } :=
  c6_empty_request wEnv emptyReq rfl rfl (by decide) (by decide)

theorem enumFrom_succ_map {α β : Type} (l : List α) (n : Nat) (f : Nat × α → β) :
    (l.enumFrom (n + 1)).map f = (l.enumFrom n).map fun p => f (p.1 + 1, p.2) := by
  induction l generalizing n with
  | nil => rfl
  | cons a l ih => simp only [List.enumFrom_cons, List.map_cons, ih]

theorem stackedGo_eq_spec (w ih spacing : Int) (ws : List ImageInfo) (y : Int) :
    stackedGo w ih spacing ws y =
      (ws.filter fun img => img.loadOk).enum.map fun p =>
        { image_id := p.2.id
          x := (w - ((fitShrink p.2.width p.2.height w ih).1 : Int)).fdiv 2
          y := y + (((ws.filter fun img => img.loadOk).take p.1).map fun im =>
                    ((fitShrink im.width im.height w ih).2 : Int) + spacing).sum
          width := (fitShrink p.2.width p.2.height w ih).1
          height := (fitShrink p.2.width p.2.height w ih).2 } := by
  induction ws generalizing y with
  | nil => rfl
  | cons img rest ihr =>
    cases hl : img.loadOk with
    | false =>
      simp only [stackedGo, hl, Bool.false_eq_true, if_false, List.filter_cons]
      exact ihr y
    | true =>
      simp only [stackedGo, hl, if_true, List.filter_cons, List.enum, List.enumFrom_cons,
        List.map_cons]
      refine congrArg₂ List.cons ?_ ?_
      · simp
      · rw [ihr (y + ((fitShrink img.width img.height w ih).2 : Int) + spacing)]
        rw [enumFrom_succ_map]
        refine List.map_congr_left ?_
        rintro ⟨k, im⟩ hk
        simp only [List.take_succ_cons, List.map_cons, List.sum_cons]
        rw [CollageElement.mk.injEq]
        refine ⟨rfl, rfl, ?_, rfl, rfl⟩
        ring

theorem stackedSpecElems_eq_go (w h spacing : Int) (ws : List ImageInfo) :
    stackedSpecElems w h spacing ws =
      stackedGo w ((h - spacing * ((ws.length : Int) - 1)).fdiv ws.length) spacing ws 0 := by
  rw [stackedGo_eq_spec]
  simp only [stackedSpecElems]
  refine List.map_congr_left ?_
  rintro ⟨k, im⟩ hk
  rw [CollageElement.mk.injEq]
  exact ⟨rfl, rfl, (zero_add _).symm, rfl, rfl⟩

theorem stackedGo_y_lb (w ih spacing : Int) (hsp : 0 ≤ spacing) (ws : List ImageInfo) :
    ∀ (y : Int) (e : CollageElement), e ∈ stackedGo w ih spacing ws y → y ≤ e.y := by
  induction ws with
  | nil => intro y e he; simp [stackedGo] at he
  | cons img rest ihr =>
    intro y e he
    cases hl : img.loadOk with
    | false =>
      simp only [stackedGo, hl, Bool.false_eq_true, if_false] at he
      exact ihr y e he
    | true =>
      simp only [stackedGo, hl, if_true, List.mem_cons] at he
      rcases he with rfl | he
      · exact le_refl y
      · have hy := ihr _ e he
        have h0 : (0 : Int) ≤ ((fitShrink img.width img.height w ih).2 : Int) :=
          Int.natCast_nonneg _
        omega

theorem stackedGo_chain (w ih spacing : Int) (hsp : 0 ≤ spacing) (ws : List ImageInfo) :
    ∀ y : Int, List.Chain' (fun a b => a.y ≤ b.y) (stackedGo w ih spacing ws y) := by
  induction ws with
  | nil => intro y; simp [stackedGo]
  | cons img rest ihr =>
    intro y
    cases hl : img.loadOk with
    | false =>
      simp only [stackedGo, hl, Bool.false_eq_true, if_false]
      exact ihr y
    | true =>
      simp only [stackedGo, hl, if_true]
      refine List.Chain'.cons' (ihr _) ?_
      intro b hb
      have hmem := List.mem_of_mem_head? hb
      have hy := stackedGo_y_lb w ih spacing hsp rest _ b hmem
      have h0 : (0 : Int) ≤ ((fitShrink img.width img.height w ih).2 : Int) :=
        Int.natCast_nonneg _
      show y ≤ b.y
      omega

/-- C8: in the stacked layout over a working set of size m, each loaded
image is aspect-fit into (W, (H - spacing*(m-1))/m floored), centred
horizontally at (W - img_w)/2 floored, the cursor starting at 0 and
advancing by the image's actual post-fit height plus spacing after each
placement, so the y coordinates of successive elements are
non-decreasing. -/
theorem c8_stacked_layout (env : Env) (ws : List ImageInfo) (req : DesignRequest)
    (hA : env.allocOk = true) (hsp : 0 ≤ req.spacing) :
    createStackedCollage env ws req =
      Except.ok
        ({ width := req.output_width, height := req.output_height
           bg := req.background_color
           pastes := stackedSpecElems req.output_width req.output_height req.spacing ws },
         stackedSpecElems req.output_width req.output_height req.spacing ws) ∧
    List.Chain' (fun a b => a.y ≤ b.y)
      (stackedSpecElems req.output_width req.output_height req.spacing ws) := by
  constructor
  · unfold createStackedCollage
    rw [hA]
    simp only [if_true]
    by_cases h0 : ws.length = 0
    · rcases List.length_eq_zero.mp h0 with rfl
      simp [stackedSpecElems]
    · simp only [if_neg h0]
      rw [stackedSpecElems_eq_go]
  · rw [stackedSpecElems_eq_go]
    exact stackedGo_chain req.output_width _ req.spacing hsp ws 0

/-- Witness for C8 at a concrete three-image stacked request with a
failing image in the middle. -/
theorem c8_stacked_layout_witness :
    createStackedCollage wEnv c8Req.images c8Req =
      Except.ok
        ({ width := c8Req.output_width, height := c8Req.output_height
           bg := c8Req.background_color
           pastes := stackedSpecElems c8Req.output_width c8Req.output_height c8Req.spacing c8Req.images },
         stackedSpecElems c8Req.output_width c8Req.output_height c8Req.spacing c8Req.images) ∧
    List.Chain' (fun a b => a.y ≤ b.y)
      (stackedSpecElems c8Req.output_width c8Req.output_height c8Req.spacing c8Req.images) :=
  c8_stacked_layout wEnv c8Req.images c8Req rfl (by decide)

theorem getElem?_drop' {α : Type} (l : List α) (n i : Nat) : (l.drop n)[i]? = l[n + i]? := by
  induction n generalizing l with
  | zero => simp
  | succ n ih =>
    cases l with
    | nil => simp
    | cons a l =>
      rw [List.drop_succ_cons, ih l]
      have h1 : n + 1 + i = (n + i) + 1 := by omega
      rw [h1, List.getElem?_cons_succ]

theorem mosaicGo_nil (ts : Int) : ∀ cells : List (Int × Int), mosaicGo ts cells [] = []
  | [] => rfl
  | _ :: cells => mosaicGo_nil ts cells

theorem mosaicGo_eq_zip (ts : Int) :
    ∀ (cells : List (Int × Int)) (imgs : List ImageInfo),
      mosaicGo ts cells imgs =
        (cells.zip imgs).filterMap fun ci =>
          if ci.2.loadOk then some (mosaicSpecElem ts ci.1 ci.2) else none := by
  intro cells
  induction cells with
  | nil => intro imgs; rfl
  | cons c cells ih =>
    intro imgs
    cases imgs with
    | nil => simp [mosaicGo_nil, List.zip_nil_right]
    | cons img imgs =>
      cases hl : img.loadOk with
      | true =>
        simp [mosaicGo, hl, List.zip_cons_cons, List.filterMap_cons, ih imgs, mosaicSpecElem]
      | false =>
        simp [mosaicGo, hl, List.zip_cons_cons, List.filterMap_cons, ih imgs, mosaicSpecElem]

theorem mosaicElems_eq_pairs (req : DesignRequest) (ws : List ImageInfo) :
    mosaicElems req ws =
      (mosaicPairs req ws).filterMap fun ci =>
        if ci.2.loadOk then some (mosaicSpecElem (mosaicTileSize req) ci.1 ci.2) else none := by
  unfold mosaicElems mosaicPairs
  by_cases h0 : ws.length = 0
  · rw [if_pos h0]
    rcases List.length_eq_zero.mp h0 with rfl
    simp [List.zip_nil_right]
  · rw [if_neg h0]
    exact mosaicGo_eq_zip _ _ ws

theorem mosaicPairs_snd_loadOk (req : DesignRequest) (ws : List ImageInfo) (j : Nat)
    (hoth : ∀ p ∈ ws.enum, p.1 ≠ j → p.2.loadOk = true) (i : Nat) (hij : i ≠ j)
    (ci : (Int × Int) × ImageInfo) (hi : (mosaicPairs req ws)[i]? = some ci) :
    ci.2.loadOk = true := by
  unfold mosaicPairs at hi
  have hz := List.getElem?_zip_eq_some.mp hi
  have hen : (i, ci.2) ∈ ws.enum := by
    rw [List.mk_mem_enum_iff_getElem?]
    exact hz.2
  exact hoth (i, ci.2) hen hij

/-- C4: mosaic tiles of size min(W,H)/10 are scanned row-major from
(0, 0) and paired with the working set in input order; when no image
fails, the k-th placed element sits at the k-th cell of the scan, and a
single load failure at input index j leaves that tile as background and
shifts every later placement's tile index by exactly one relative to
its rank among the placed elements. -/
theorem c4_mosaic_skip_forward (env : Env) (ws : List ImageInfo) (req : DesignRequest)
    (hA : env.allocOk = true) :
    createMosaicCollage env ws req =
      Except.ok
        ({ width := req.output_width, height := req.output_height
           bg := req.background_color, pastes := mosaicElems req ws }, mosaicElems req ws) ∧
    ((∀ img ∈ ws, img.loadOk = true) →
      ∀ k : Nat, (mosaicElems req ws)[k]? =
        ((mosaicPairs req ws)[k]?).map fun ci =>
          mosaicSpecElem (mosaicTileSize req) ci.1 ci.2) ∧
    (∀ (j : Nat) (b : (Int × Int) × ImageInfo),
      (mosaicPairs req ws)[j]? = some b → b.2.loadOk = false →
      (∀ p ∈ ws.enum, p.1 ≠ j → p.2.loadOk = true) →
      ∀ k : Nat, (mosaicElems req ws)[k]? =
        ((mosaicPairs req ws)[if k < j then k else k + 1]?).map fun ci =>
          mosaicSpecElem (mosaicTileSize req) ci.1 ci.2) := by
  refine ⟨?_, ?_, ?_⟩
  · unfold createMosaicCollage
    rw [hA]
    simp only [if_true]
    rfl
  · intro hall k
    have hallp : ∀ ci ∈ mosaicPairs req ws, ci.2.loadOk = true := by
      rintro ⟨cell, img⟩ hci
      exact hall img (List.of_mem_zip hci).2
    rw [mosaicElems_eq_pairs, filterMap_if_eq_map _ _ _ hallp, List.getElem?_map]
  · intro j b hb hbl hoth k
    obtain ⟨hjlt, hjeq⟩ := List.getElem?_eq_some_iff.mp hb
    have hsplit : mosaicPairs req ws =
        (mosaicPairs req ws).take j ++ b :: (mosaicPairs req ws).drop (j + 1) := by
      conv_lhs => rw [← List.take_append_drop j (mosaicPairs req ws)]
      rw [List.drop_eq_getElem_cons hjlt, hjeq]
    have htakeOk : ∀ ci ∈ (mosaicPairs req ws).take j, ci.2.loadOk = true := by
      intro ci hci
      rcases List.mem_iff_getElem?.mp hci with ⟨i, hi⟩
      have hlen := (List.getElem?_eq_some_iff.mp hi).1
      rw [List.length_take] at hlen
      have hij : i < j := by omega
      rw [List.getElem?_take_of_lt hij] at hi
      exact mosaicPairs_snd_loadOk req ws j hoth i (by omega) ci hi
    have hdropOk : ∀ ci ∈ (mosaicPairs req ws).drop (j + 1), ci.2.loadOk = true := by
      intro ci hci
      rcases List.mem_iff_getElem?.mp hci with ⟨i, hi⟩
      rw [getElem?_drop'] at hi
      exact mosaicPairs_snd_loadOk req ws j hoth (j + 1 + i) (by omega) ci hi
    have hes : mosaicElems req ws =
        ((mosaicPairs req ws).take j).map
          (fun ci => mosaicSpecElem (mosaicTileSize req) ci.1 ci.2) ++
        ((mosaicPairs req ws).drop (j + 1)).map
          (fun ci => mosaicSpecElem (mosaicTileSize req) ci.1 ci.2) := by
      rw [mosaicElems_eq_pairs]
      conv_lhs => rw [hsplit]
      rw [List.filterMap_append, List.filterMap_cons]
      simp only [hbl, Bool.false_eq_true, if_false]
      rw [filterMap_if_eq_map _ _ _ htakeOk, filterMap_if_eq_map _ _ _ hdropOk]
    rw [hes]
    have hlen_take :
        (((mosaicPairs req ws).take j).map
          (fun ci => mosaicSpecElem (mosaicTileSize req) ci.1 ci.2)).length = j := by
      rw [List.length_map, List.length_take]
      omega
    by_cases hkj : k < j
    · rw [if_pos hkj, List.getElem?_append_left (by omega), List.getElem?_map,
        List.getElem?_take_of_lt hkj]
    · rw [if_neg hkj, List.getElem?_append_right (by omega), hlen_take, List.getElem?_map,
        getElem?_drop']
      have harith : j + 1 + (k - j) = k + 1 := by omega
      rw [harith]

/-- Witness for C4: skip-forward setup with the failing image at index
1 of three, checked at placement rank 1. -/
theorem c4_mosaic_skip_forward_witness :
    (mosaicElems c4Req c4Ws)[1]? =
      ((mosaicPairs c4Req c4Ws)[2]?).map
        (fun ci => mosaicSpecElem (mosaicTileSize c4Req) ci.1 ci.2) :=
  (c4_mosaic_skip_forward wEnv c4Ws c4Req rfl).2.2 1 ((100, 0), wBadImg) (by rfl) rfl
    (by decide) 1

theorem createGrid_eq (env : Env) (ws : List ImageInfo) (req : DesignRequest)
    (hA : env.allocOk = true) :
    createGridCollage env ws req =
      Except.ok
        ({ width := req.output_width, height := req.output_height
           bg := req.background_color, pastes := gridSpecPlacements req ws },
         gridSpecPlacements req ws) := by
  unfold createGridCollage
  rw [hA]
  simp only [if_true]
  rw [grid_elements_spec]

theorem createCircular_eq (env : Env) (ws : List ImageInfo) (req : DesignRequest)
    (hA : env.allocOk = true) :
    createCircularCollage env ws req =
      Except.ok
        ({ width := req.output_width, height := req.output_height
           bg := req.background_color, pastes := circularSpecPlacements req ws },
         circularSpecPlacements req ws) := by
  unfold createCircularCollage
  rw [hA]
  simp only [if_true]
  rw [circular_elements_spec]

theorem createStacked_eq (env : Env) (ws : List ImageInfo) (req : DesignRequest)
    (hA : env.allocOk = true) :
    createStackedCollage env ws req =
      Except.ok
        ({ width := req.output_width, height := req.output_height
           bg := req.background_color
           pastes := stackedSpecElems req.output_width req.output_height req.spacing ws },
         stackedSpecElems req.output_width req.output_height req.spacing ws) := by
  unfold createStackedCollage
  rw [hA]
  simp only [if_true]
  by_cases h0 : ws.length = 0
  · rcases List.length_eq_zero.mp h0 with rfl
    simp [stackedSpecElems]
  · simp only [if_neg h0]
    rw [stackedSpecElems_eq_go]

theorem createFreeform_eq (env : Env) (ws : List ImageInfo) (req : DesignRequest)
    (hA : env.allocOk = true) :
    createFreeformCollage env ws req =
      Except.ok
        ({ width := req.output_width, height := req.output_height
           bg := req.background_color, pastes := freeformElems env req ws },
         freeformElems env req ws) := by
  unfold createFreeformCollage
  rw [hA]
  simp only [if_true]
  rfl

theorem createMosaic_eq (env : Env) (ws : List ImageInfo) (req : DesignRequest)
    (hA : env.allocOk = true) :
    createMosaicCollage env ws req =
      Except.ok
        ({ width := req.output_width, height := req.output_height
           bg := req.background_color, pastes := mosaicElems req ws },
         mosaicElems req ws) := by
  unfold createMosaicCollage
  rw [hA]
  simp only [if_true]
  rfl

theorem gridSpecPlacements_ids (req : DesignRequest) (ws : List ImageInfo) :
    ∀ e ∈ gridSpecPlacements req ws, e.image_id ∈ ws.map ImageInfo.id := by
  intro e he
  rcases mem_filterMap_if he with ⟨p, hp, hpl, rfl⟩
  exact List.mem_map_of_mem ImageInfo.id (snd_mem_of_mem_enum hp)

theorem gridSpecPlacements_length_le (req : DesignRequest) (ws : List ImageInfo) :
    (gridSpecPlacements req ws).length ≤ ws.length := by
  unfold gridSpecPlacements
  calc (ws.enum.filterMap fun p =>
          if p.2.loadOk then
            some (gridSpecPlacement req.output_width req.output_height req.spacing
              ws.length p.1 p.2)
          else none).length
      ≤ ws.enum.length := filterMap_if_length_le _ _ _
    _ = ws.length := List.enum_length

theorem gridSpecPlacements_length_all (req : DesignRequest) (ws : List ImageInfo)
    (hall : ∀ x ∈ ws, x.loadOk = true) :
    (gridSpecPlacements req ws).length = ws.length := by
  unfold gridSpecPlacements
  rw [filterMap_if_eq_map _ _ _ fun p hp => hall p.2 (snd_mem_of_mem_enum hp)]
  rw [List.length_map, List.enum_length]

theorem circularSpecPlacements_ids (req : DesignRequest) (ws : List ImageInfo) :
    ∀ e ∈ circularSpecPlacements req ws, e.image_id ∈ ws.map ImageInfo.id := by
  intro e he
  rcases mem_filterMap_if he with ⟨p, hp, hpl, rfl⟩
  exact List.mem_map_of_mem ImageInfo.id (snd_mem_of_mem_enum hp)

theorem circularSpecPlacements_length_le (req : DesignRequest) (ws : List ImageInfo) :
    (circularSpecPlacements req ws).length ≤ ws.length := by
  unfold circularSpecPlacements
  calc (ws.enum.filterMap fun p =>
          if p.2.loadOk then
            some (circularSpecPlacement req.output_width req.output_height ws.length p.1 p.2)
          else none).length
      ≤ ws.enum.length := filterMap_if_length_le _ _ _
    _ = ws.length := List.enum_length

theorem circularSpecPlacements_length_all (req : DesignRequest) (ws : List ImageInfo)
    (hall : ∀ x ∈ ws, x.loadOk = true) :
    (circularSpecPlacements req ws).length = ws.length := by
  unfold circularSpecPlacements
  rw [filterMap_if_eq_map _ _ _ fun p hp => hall p.2 (snd_mem_of_mem_enum hp)]
  rw [List.length_map, List.enum_length]

theorem stackedGo_ids (w ih spacing : Int) (ws : List ImageInfo) :
    ∀ (y : Int) (e : CollageElement), e ∈ stackedGo w ih spacing ws y →
      e.image_id ∈ ws.map ImageInfo.id := by
  induction ws with
  | nil => intro y e he; simp [stackedGo] at he
  | cons img rest ihr =>
    intro y e he
    rw [List.map_cons]
    cases hl : img.loadOk with
    | false =>
      simp only [stackedGo, hl, Bool.false_eq_true, if_false] at he
      exact List.mem_cons_of_mem _ (ihr y e he)
    | true =>
      simp only [stackedGo, hl, if_true, List.mem_cons] at he
      rcases he with rfl | he
      · exact List.mem_cons_self _ _
      · exact List.mem_cons_of_mem _ (ihr _ e he)

theorem stackedGo_length (w ih spacing : Int) (ws : List ImageInfo) :
    ∀ y : Int, (stackedGo w ih spacing ws y).length ≤ ws.length ∧
      ((∀ x ∈ ws, x.loadOk = true) → (stackedGo w ih spacing ws y).length = ws.length) := by
  induction ws with
  | nil => intro y; exact ⟨Nat.le_refl 0, fun _ => rfl⟩
  | cons img rest ihr =>
    intro y
    cases hl : img.loadOk with
    | false =>
      constructor
      · simp only [stackedGo, hl, Bool.false_eq_true, if_false, List.length_cons]
        exact Nat.le_succ_of_le (ihr y).1
      · intro hall
        exact absurd (hall img (List.mem_cons_self _ _)) (by simp [hl])
    | true =>
      constructor
      · simp only [stackedGo, hl, if_true, List.length_cons]
        exact Nat.succ_le_succ (ihr _).1
      · intro hall
        simp only [stackedGo, hl, if_true, List.length_cons]
        rw [(ihr _).2 fun x hx => hall x (List.mem_cons_of_mem _ hx)]

theorem freeformGo_ids (env : Env) (ws : List ImageInfo) :
    ∀ (i : Nat) (used : List (Int × Int)) (e : CollageElement),
      e ∈ freeformGo env i ws used → e.image_id ∈ ws.map ImageInfo.id := by
  induction ws with
  | nil => intro i used e he; simp [freeformGo] at he
  | cons img rest ihr =>
    intro i used e he
    rw [List.map_cons]
    cases hl : img.loadOk with
    | false =>
      simp only [freeformGo, hl, Bool.false_eq_true, if_false] at he
      exact List.mem_cons_of_mem _ (ihr (i + 1) used e he)
    | true =>
      simp only [freeformGo, hl, if_true, List.mem_cons] at he
      rcases he with rfl | he
      · exact List.mem_cons_self _ _
      · exact List.mem_cons_of_mem _ (ihr (i + 1) _ e he)

theorem freeformGo_length (env : Env) (ws : List ImageInfo) :
    ∀ (i : Nat) (used : List (Int × Int)),
      (freeformGo env i ws used).length ≤ ws.length ∧
      ((∀ x ∈ ws, x.loadOk = true) → (freeformGo env i ws used).length = ws.length) := by
  induction ws with
  | nil => intro i used; exact ⟨Nat.le_refl 0, fun _ => rfl⟩
  | cons img rest ihr =>
    intro i used
    cases hl : img.loadOk with
    | false =>
      constructor
      · simp only [freeformGo, hl, Bool.false_eq_true, if_false, List.length_cons]
        exact Nat.le_succ_of_le (ihr (i + 1) used).1
      · intro hall
        exact absurd (hall img (List.mem_cons_self _ _)) (by simp [hl])
    | true =>
      constructor
      · simp only [freeformGo, hl, if_true, List.length_cons]
        exact Nat.succ_le_succ (ihr (i + 1) _).1
      · intro hall
        simp only [freeformGo, hl, if_true, List.length_cons]
        rw [(ihr (i + 1) _).2 fun x hx => hall x (List.mem_cons_of_mem _ hx)]

theorem mosaicGo_ids (ts : Int) :
    ∀ (cells : List (Int × Int)) (imgs : List ImageInfo) (e : CollageElement),
      e ∈ mosaicGo ts cells imgs → e.image_id ∈ imgs.map ImageInfo.id := by
  intro cells
  induction cells with
  | nil => intro imgs e he; simp [mosaicGo] at he
  | cons c cells ihr =>
    intro imgs e he
    cases imgs with
    | nil => rw [mosaicGo_nil] at he; simp at he
    | cons img rest =>
      rw [List.map_cons]
      cases hl : img.loadOk with
      | false =>
        simp only [mosaicGo, hl, Bool.false_eq_true, if_false] at he
        exact List.mem_cons_of_mem _ (ihr rest e he)
      | true =>
        simp only [mosaicGo, hl, if_true, List.mem_cons] at he
        rcases he with rfl | he
        · exact List.mem_cons_self _ _
        · exact List.mem_cons_of_mem _ (ihr rest e he)

theorem mosaicGo_length (ts : Int) :
    ∀ (cells : List (Int × Int)) (imgs : List ImageInfo),
      (mosaicGo ts cells imgs).length ≤ imgs.length ∧
      ((∀ x ∈ imgs, x.loadOk = true) → imgs.length ≤ cells.length →
        (mosaicGo ts cells imgs).length = imgs.length) := by
  intro cells
  induction cells with
  | nil =>
    intro imgs
    refine ⟨Nat.zero_le _, fun _ hle => ?_⟩
    have h0 : imgs.length = 0 := Nat.le_zero.mp hle
    rw [h0]
    rfl
  | cons c cells ihr =>
    intro imgs
    cases imgs with
    | nil => exact ⟨by simp [mosaicGo_nil], fun _ _ => by simp [mosaicGo_nil]⟩
    | cons img rest =>
      cases hl : img.loadOk with
      | false =>
        constructor
        · simp only [mosaicGo, hl, Bool.false_eq_true, if_false, List.length_cons]
          exact Nat.le_succ_of_le (ihr rest).1
        · intro hall
          exact absurd (hall img (List.mem_cons_self _ _)) (by simp [hl])
      | true =>
        constructor
        · simp only [mosaicGo, hl, if_true, List.length_cons]
          exact Nat.succ_le_succ (ihr rest).1
        · intro hall hle
          simp only [mosaicGo, hl, if_true, List.length_cons]
          rw [(ihr rest).2 (fun x hx => hall x (List.mem_cons_of_mem _ hx))
            (by simp only [List.length_cons] at hle; omega)]

theorem stackedSpec_facts (w h spacing : Int) (ws : List ImageInfo) :
    (∀ e ∈ stackedSpecElems w h spacing ws, e.image_id ∈ ws.map ImageInfo.id) ∧
    (stackedSpecElems w h spacing ws).length ≤ ws.length ∧
    ((∀ x ∈ ws, x.loadOk = true) → (stackedSpecElems w h spacing ws).length = ws.length) := by
  rw [stackedSpecElems_eq_go]
  exact ⟨fun e he => stackedGo_ids _ _ _ ws 0 e he, (stackedGo_length _ _ _ ws 0).1,
    fun hall => (stackedGo_length _ _ _ ws 0).2 hall⟩

theorem freeformElems_facts (env : Env) (req : DesignRequest) (ws : List ImageInfo) :
    (∀ e ∈ freeformElems env req ws, e.image_id ∈ ws.map ImageInfo.id) ∧
    (freeformElems env req ws).length ≤ ws.length ∧
    ((∀ x ∈ ws, x.loadOk = true) → (freeformElems env req ws).length = ws.length) := by
  unfold freeformElems
  by_cases h0 : ws.length = 0
  · rw [if_pos h0]
    rcases List.length_eq_zero.mp h0 with rfl
    exact ⟨by simp, Nat.le_refl 0, fun _ => rfl⟩
  · rw [if_neg h0]
    exact ⟨fun e he => freeformGo_ids env ws 0 [] e he, (freeformGo_length env ws 0 []).1,
      fun hall => (freeformGo_length env ws 0 []).2 hall⟩

theorem mosaicElems_facts (req : DesignRequest) (ws : List ImageInfo) :
    (∀ e ∈ mosaicElems req ws, e.image_id ∈ ws.map ImageInfo.id) ∧
    (mosaicElems req ws).length ≤ ws.length ∧
    ((∀ x ∈ ws, x.loadOk = true) →
      ws.length ≤ (mosaicCells req.output_width req.output_height (mosaicTileSize req)).length →
      (mosaicElems req ws).length = ws.length) := by
  unfold mosaicElems
  by_cases h0 : ws.length = 0
  · rw [if_pos h0]
    rcases List.length_eq_zero.mp h0 with rfl
    exact ⟨by simp, Nat.zero_le _, fun _ _ => rfl⟩
  · rw [if_neg h0]
    exact ⟨fun e he => mosaicGo_ids _ _ ws e he, (mosaicGo_length _ _ ws).1,
      (mosaicGo_length _ _ ws).2⟩

theorem dispatch_ok_facts (env : Env) (req : DesignRequest) (ws : List ImageInfo)
    (c : Canvas) (es : List CollageElement)
    (hd : dispatchLayout env req ws = Except.ok (c, es)) :
    (∀ e ∈ es, e.image_id ∈ ws.map ImageInfo.id) ∧
    es.length ≤ ws.length ∧
    ((∀ i ∈ ws, i.loadOk = true) →
      (req.layout = "mosaic" →
        ws.length ≤ (mosaicCells req.output_width req.output_height (mosaicTileSize req)).length) →
      es.length = ws.length) := by
  unfold dispatchLayout at hd
  by_cases hA : env.allocOk = true
  · by_cases h1 : req.layout = "grid"
    · rw [if_pos h1, createGrid_eq env ws req hA] at hd
      injection hd with hp
      rw [Prod.mk.injEq] at hp
      obtain ⟨hc, hes⟩ := hp
      subst hes
      exact ⟨gridSpecPlacements_ids req ws, gridSpecPlacements_length_le req ws,
        fun hall _ => gridSpecPlacements_length_all req ws hall⟩
    · rw [if_neg h1] at hd
      by_cases h2 : req.layout = "stacked"
      · rw [if_pos h2, createStacked_eq env ws req hA] at hd
        injection hd with hp
        rw [Prod.mk.injEq] at hp
        obtain ⟨hc, hes⟩ := hp
        subst hes
        have hf := stackedSpec_facts req.output_width req.output_height req.spacing ws
        exact ⟨hf.1, hf.2.1, fun hall _ => hf.2.2 hall⟩
      · rw [if_neg h2] at hd
        by_cases h3 : req.layout = "circular"
        · rw [if_pos h3, createCircular_eq env ws req hA] at hd
          injection hd with hp
          rw [Prod.mk.injEq] at hp
          obtain ⟨hc, hes⟩ := hp
          subst hes
          exact ⟨circularSpecPlacements_ids req ws, circularSpecPlacements_length_le req ws,
            fun hall _ => circularSpecPlacements_length_all req ws hall⟩
        · rw [if_neg h3] at hd
          by_cases h4 : req.layout = "freeform"
          · rw [if_pos h4, createFreeform_eq env ws req hA] at hd
            injection hd with hp
            rw [Prod.mk.injEq] at hp
            obtain ⟨hc, hes⟩ := hp
            subst hes
            have hf := freeformElems_facts env req ws
            exact ⟨hf.1, hf.2.1, fun hall _ => hf.2.2 hall⟩
          · rw [if_neg h4] at hd
            by_cases h5 : req.layout = "mosaic"
            · rw [if_pos h5, createMosaic_eq env ws req hA] at hd
              injection hd with hp
              rw [Prod.mk.injEq] at hp
              obtain ⟨hc, hes⟩ := hp
              subst hes
              have hf := mosaicElems_facts req ws
              exact ⟨hf.1, hf.2.1, fun hall hcap => hf.2.2 hall (hcap h5)⟩
            · rw [if_neg h5] at hd
              simp at hd
  · exfalso
    by_cases h1 : req.layout = "grid"
    · rw [if_pos h1] at hd
      unfold createGridCollage at hd
      rw [if_neg hA] at hd
      simp at hd
    · rw [if_neg h1] at hd
      by_cases h2 : req.layout = "stacked"
      · rw [if_pos h2] at hd
        unfold createStackedCollage at hd
        rw [if_neg hA] at hd
        simp at hd
      · rw [if_neg h2] at hd
        by_cases h3 : req.layout = "circular"
        · rw [if_pos h3] at hd
          unfold createCircularCollage at hd
          rw [if_neg hA] at hd
          simp at hd
        · rw [if_neg h3] at hd
          by_cases h4 : req.layout = "freeform"
          · rw [if_pos h4] at hd
            unfold createFreeformCollage at hd
            rw [if_neg hA] at hd
            simp at hd
          · rw [if_neg h4] at hd
            by_cases h5 : req.layout = "mosaic"
            · rw [if_pos h5] at hd
              unfold createMosaicCollage at hd
              rw [if_neg hA] at hd
              simp at hd
            · rw [if_neg h5] at hd
              simp at hd

theorem generate_ok_inv (env : Env) (req : DesignRequest) (r : CollageGenerationResult)
    (h : generateCollage env req = Except.ok r) :
    ∃ c es,
      dispatchLayout env req (processImages env req.images req.output_width req.output_height) =
        Except.ok (c, es) ∧
      r = { output_width := req.output_width
            output_height := req.output_height
            images_used := (processImages env req.images req.output_width req.output_height).map
              ImageInfo.id
            layout_used := req.layout
            elements := es
            canvas := c } := by
  unfold generateCollage at h
  rcases hd : dispatchLayout env req
      (processImages env req.images req.output_width req.output_height) with e2 | ⟨c, es⟩
  · rw [hd] at h
    exact absurd h (by simp)
  · rw [hd] at h
    dsimp only at h
    by_cases hs : env.saveOk = true
    · rw [if_pos hs] at h
      injection h with h1
      exact ⟨c, es, rfl, h1.symm⟩
    · rw [if_neg hs] at h
      exact absurd h (by simp)

theorem processImages_ids (env : Env) (imgs : List ImageInfo) (w h : Int) :
    (processImages env imgs w h).map ImageInfo.id =
      (imgs.enum.filter fun p => p.2.processOk).map fun p => env.freshId p.1 := by
  unfold processImages
  by_cases h0 : imgs.length = 0
  · rw [if_pos h0]
    rcases List.length_eq_zero.mp h0 with rfl
    rfl
  · rw [if_neg h0]
    exact filterMap_if_map _ _ _ _ (fun a => rfl) imgs.enum

theorem processImages_length_le (env : Env) (imgs : List ImageInfo) (w h : Int) :
    (processImages env imgs w h).length ≤ imgs.length := by
  unfold processImages
  by_cases h0 : imgs.length = 0
  · rw [if_pos h0]
    exact Nat.zero_le _
  · rw [if_neg h0]
    exact le_trans (filterMap_if_length_le _ _ _) (le_of_eq List.enum_length)

theorem processImages_length_all (env : Env) (imgs : List ImageInfo) (w h : Int)
    (hall : ∀ i ∈ imgs, i.processOk = true) :
    (processImages env imgs w h).length = imgs.length := by
  unfold processImages
  by_cases h0 : imgs.length = 0
  · rw [if_pos h0]
    simp [h0]
  · rw [if_neg h0,
      filterMap_if_eq_map _ _ _ fun p hp => hall p.2 (snd_mem_of_mem_enum hp),
      List.length_map, List.enum_length]

theorem processImages_loadOk (env : Env) (imgs : List ImageInfo) (w h : Int)
    (hall : ∀ i ∈ imgs, i.loadOk = true) :
    ∀ i ∈ processImages env imgs w h, i.loadOk = true := by
  intro i hi
  unfold processImages at hi
  by_cases h0 : imgs.length = 0
  · rw [if_pos h0] at hi
    simp at hi
  · rw [if_neg h0] at hi
    rcases mem_filterMap_if hi with ⟨a, ha, hp, rfl⟩
    exact hall a.2 (snd_mem_of_mem_enum ha)

/-- C1 counterexample: a grid request whose single image (requested id
7) survives pre-sizing but fails to load yields images_used = [100]
(the processor's fresh id) while no element was placed, so images_used
is neither the set of ids of placed elements nor a subset of the
requested images' ids. -/
theorem c1_images_used_counterexample :
    (generateCollage wEnv c1Req).map
        (fun r => (r.images_used, r.elements.map CollageElement.image_id)) =
      Except.ok ([100], []) ∧
    ([100] : List Nat) ≠ [] ∧
    c1Req.images.map ImageInfo.id = [7] ∧
    ¬ ([100] : List Nat) ⊆ [7] :=
  ⟨by rfl, by decide, by rfl, by decide⟩

/-- C1 (amended): images_used holds the processor-assigned fresh ids of
the working set, one per requested image whose pre-sizing transform
succeeded, in input order, and is a superset of the placed elements'
ids; a pre-sizing failure is reflected by absence from images_used,
while a later load failure is reflected only in the elements.  Because
the processor mints a fresh uuid4 per processed image, images_used is
not in general a subset of the requested images' ids. -/
theorem c1_images_used_working_set (env : Env) (req : DesignRequest)
    (r : CollageGenerationResult) (h : generateCollage env req = Except.ok r) :
    r.images_used =
      ((req.images.enum.filter fun p => p.2.processOk).map fun p => env.freshId p.1) ∧
    (∀ e ∈ r.elements, e.image_id ∈ r.images_used) := by
  obtain ⟨c, es, hd, rfl⟩ := generate_ok_inv env req r h
  refine ⟨processImages_ids env req.images req.output_width req.output_height, ?_⟩
  intro e he
  exact (dispatch_ok_facts env req _ c es hd).1 e he

/-- Witness for C1 (amended) at the concrete failing-load request. -/
theorem c1_images_used_working_set_witness :
    c1Res.images_used =
      ((c1Req.images.enum.filter fun p => p.2.processOk).map fun p => wEnv.freshId p.1) :=
  (c1_images_used_working_set wEnv c1Req c1Res (by rfl)).1

/-- C7 counterexample: 101 all-successful images on a mosaic canvas
with exactly 100 tiles yield only 100 elements, so equality fails even
though every image loads and transforms successfully. -/
theorem c7_equality_counterexample :
    (generateCollage wEnv c7Req).map (fun r => r.elements.length) = Except.ok 100 ∧
    c7Req.images.length = 101 ∧
    (∀ img ∈ c7Req.images, img.processOk = true ∧ img.loadOk = true) :=
  ⟨by rfl, by rfl, by decide⟩

/-- C7 (amended): the number of placed elements never exceeds the
number of requested images, and equals it when every image processes
and loads successfully, provided (for the mosaic layout) the images do
not outnumber the scanned tiles. -/
theorem c7_element_count (env : Env) (req : DesignRequest) (r : CollageGenerationResult)
    (h : generateCollage env req = Except.ok r) :
    r.elements.length ≤ req.images.length ∧
    ((∀ img ∈ req.images, img.processOk = true ∧ img.loadOk = true) →
     (req.layout = "mosaic" →
        req.images.length ≤
          (mosaicCells req.output_width req.output_height (mosaicTileSize req)).length) →
     r.elements.length = req.images.length) := by
  obtain ⟨c, es, hd, rfl⟩ := generate_ok_inv env req r h
  have hf := dispatch_ok_facts env req _ c es hd
  constructor
  · exact le_trans hf.2.1 (processImages_length_le env req.images _ _)
  · intro hall hcap
    have hpo : ∀ i ∈ req.images, i.processOk = true := fun i hi => (hall i hi).1
    have hplen : (processImages env req.images req.output_width req.output_height).length =
        req.images.length := processImages_length_all _ _ _ _ hpo
    have hplo : ∀ i ∈ processImages env req.images req.output_width req.output_height,
        i.loadOk = true :=
      processImages_loadOk _ _ _ _ fun i hi => (hall i hi).2
    have heq := hf.2.2 hplo fun hm => by rw [hplen]; exact hcap hm
    show es.length = req.images.length
    rw [heq, hplen]

/-- Witness for C7 (amended) at a two-image mosaic request. -/
theorem c7_element_count_witness :
    c7SmallRes.elements.length ≤ c7SmallReq.images.length ∧
    c7SmallRes.elements.length = c7SmallReq.images.length :=
  ⟨(c7_element_count wEnv c7SmallReq c7SmallRes (by rfl)).1,
   (c7_element_count wEnv c7SmallReq c7SmallRes (by rfl)).2 (by decide) (fun _ => by decide)⟩

/-- Witness for C5 at a concrete three-image request. -/
theorem c5_circular_placement_witness :
    createCircularCollage wEnv c5Req.images c5Req =
      Except.ok
        ({ width := c5Req.output_width, height := c5Req.output_height
           bg := c5Req.background_color, pastes := circularSpecPlacements c5Req c5Req.images },
         circularSpecPlacements c5Req c5Req.images) :=
  c5_circular_placement wEnv c5Req.images c5Req rfl
